import Mathlib

/-!
# Phonon Spatializer plugin description (`phonon_fmod.plugin.js`)

The source file is one call,
`studio.plugins.registerPluginDescription("Phonon Spatializer", { ... })`,
whose second argument is an object literal.  The literal is embedded here
value by value: object literals become `JsValue.obj` with their properties in
source order, array literals become `JsValue.arr`, string, number and boolean
literals keep their value, and a dotted host identifier such as
`studio.ui.deckWidgetType.Layout` is kept symbolically as `JsValue.ref`.
A numeric property name (`0:` in `rolloffTypes`) is the property name `"0"`,
as in JavaScript.
-/

namespace PhononFmod

/-- A JavaScript value of the kinds that occur in the description literal. -/
inductive JsValue where
  | str (s : String)
  | num (n : Nat)
  | bool (b : Bool)
  | ref (path : String)
  | obj (fields : List (String × JsValue))
  | arr (elems : List JsValue)

namespace JsValue

/-- Property lookup `v[k]`; `none` stands for `undefined`. -/
def get? : JsValue → String → Option JsValue
  | obj fields, k => fields.lookup k
  | _, _ => none

/-- The property names of an object literal, in source order. -/
def keys : JsValue → List String
  | obj fields => fields.map Prod.fst
  | _ => []

/-- The string held by a string literal. -/
def asStr? : JsValue → Option String
  | str s => some s
  | _ => none

/-- The number held by a number literal. -/
def asNum? : JsValue → Option Nat
  | num n => some n
  | _ => none

/-- The path of a host identifier. -/
def asRef? : JsValue → Option String
  | ref p => some p
  | _ => none

/-- The boolean held by a boolean literal. -/
def asBool? : JsValue → Option Bool
  | bool b => some b
  | _ => none

/-- The elements of an array literal. -/
def asArr? : JsValue → Option (List JsValue)
  | arr xs => some xs
  | _ => none

/-- String-valued property `v[k]`. -/
def strProp? (v : JsValue) (k : String) : Option String :=
  (v.get? k).bind asStr?

/-- Number-valued property `v[k]`. -/
def numProp? (v : JsValue) (k : String) : Option Nat :=
  (v.get? k).bind asNum?

/-- Host-identifier-valued property `v[k]`. -/
def refProp? (v : JsValue) (k : String) : Option String :=
  (v.get? k).bind asRef?

/-- The elements of the array-valued property `v[k]` (empty when there is
none). -/
def arrProp (v : JsValue) (k : String) : List JsValue :=
  ((v.get? k).bind asArr?).getD []

/-- The `deckWidgetType` of a widget. -/
def deckWidgetType? (v : JsValue) : Option String :=
  v.refProp? "deckWidgetType"

mutual
/-- The widget itself followed by every widget nested, at any depth, in its
`items` array, in source order. -/
def widgets : JsValue → List JsValue
  | obj fields => obj fields :: widgetsOfFields fields
  | _ => []
/-- The widgets nested under the `items` property among `fields`. -/
def widgetsOfFields : List (String × JsValue) → List JsValue
  | [] => []
  | (k, arr elems) :: rest =>
      if k = "items" then widgetsOfElems elems else widgetsOfFields rest
  | _ :: rest => widgetsOfFields rest
/-- The widgets of each element of an `items` array, concatenated. -/
def widgetsOfElems : List JsValue → List JsValue
  | [] => []
  | x :: xs => widgets x ++ widgetsOfElems xs
end

mutual
/-- Every object literal of a value, at any depth and under any property or
array element, in source order. -/
def objects : JsValue → List JsValue
  | obj fields => obj fields :: objectsOfFields fields
  | arr elems => objectsOfElems elems
  | _ => []
/-- The object literals within the property values of `fields`. -/
def objectsOfFields : List (String × JsValue) → List JsValue
  | [] => []
  | (_, v) :: rest => objects v ++ objectsOfFields rest
/-- The object literals within the elements of an array. -/
def objectsOfElems : List JsValue → List JsValue
  | [] => []
  | x :: xs => objects x ++ objectsOfElems xs
end

end JsValue

open JsValue

/-- The name under which the description is registered (source line 18). -/
def pluginName : String := "Phonon Spatializer"

/-- The `parameters` object literal (source lines 21-49). -/
def parameters : JsValue :=
  obj [
    ("DirectBinaural", obj [("displayName", str "Apply HRTF To Direct")]),
    ("ApplyDA", obj [("displayName", str "Distance Attenuation")]),
    ("ApplyAA", obj [("displayName", str "Air Absorption")]),
    ("ApplyDir", obj [("displayName", str "Directivity")]),
    ("ApplyOc", obj [("displayName", str "Occlusion")]),
    ("ApplyTrans", obj [("displayName", str "Transmission")]),
    ("ApplyReflections", obj [("displayName", str "Reflections")]),
    ("ApplyPathing", obj [("displayName", str "Pathing")]),
    ("HrtfInterp", obj [("displayName", str "HRTF Interpolation")]),
    ("DistAtt", obj [("displayName", str "Value")]),
    ("AirAbsLow", obj [("displayName", str "AA Low")]),
    ("AirAbsMid", obj [("displayName", str "AA Mid")]),
    ("AirAbsHigh", obj [("displayName", str "AA High")]),
    ("Directivity", obj [("displayName", str "Dir. Value")]),
    ("DipoleWeight", obj [("displayName", str "Weight")]),
    ("DipolePower", obj [("displayName", str "Power")]),
    ("Occlusion", obj [("displayName", str "Occl. Value")]),
    ("TransType", obj [("displayName", str "Transmission Type")]),
    ("TransLow", obj [("displayName", str "Trans. Low")]),
    ("TransMid", obj [("displayName", str "Trans. Mid")]),
    ("TransHigh", obj [("displayName", str "Trans. High")]),
    ("DirMixLevel", obj [("displayName", str "Direct Mix Level")]),
    ("ReflBinaural", obj [("displayName", str "Apply HRTF To Reflections")]),
    ("ReflMixLevel", obj [("displayName", str "Reflections Mix Level")]),
    ("PathBinaural", obj [("displayName", str "Apply HRTF To Pathing")]),
    ("PathMixLevel", obj [("displayName", str "Pathing Mix Level")]),
    ("OutputFormat", obj [("displayName", str "Output Format")])
  ]

/-- The `deckUi` object literal (source lines 50-321). -/
def deckUi : JsValue :=
  obj [
    ("deckWidgetType", ref "studio.ui.deckWidgetType.Layout"),
    ("layout", ref "studio.ui.layoutType.HBoxLayout"),
    ("spacing", num 8),
    ("items", arr [
      obj [("deckWidgetType", ref "studio.ui.deckWidgetType.InputMeter")],
      obj [
        ("deckWidgetType", ref "studio.ui.deckWidgetType.Layout"),
        ("layout", ref "studio.ui.layoutType.VBoxLayout"),
        ("minimumWidth", num 128),
        ("maximumWidth", num 150),
        ("spacing", num 8),
        ("contentsMargins", obj [("left", num 4), ("right", num 4)]),
        ("alignment", ref "studio.ui.alignment.AlignTop"),
        ("isFramed", bool true),
        ("items", arr [
          obj [("deckWidgetType", ref "studio.ui.deckWidgetType.Dropdown"), ("binding", str "HrtfInterp")],
          obj [("deckWidgetType", ref "studio.ui.deckWidgetType.Dropdown"), ("binding", str "ApplyDA")],
          obj [("deckWidgetType", ref "studio.ui.deckWidgetType.Dropdown"), ("binding", str "ApplyAA")],
          obj [("deckWidgetType", ref "studio.ui.deckWidgetType.Dropdown"), ("binding", str "ApplyDir")]])],
      obj [
        ("deckWidgetType", ref "studio.ui.deckWidgetType.Layout"),
        ("layout", ref "studio.ui.layoutType.VBoxLayout"),
        ("minimumWidth", num 128),
        ("maximumWidth", num 250),
        ("spacing", num 8),
        ("contentsMargins", obj [("left", num 4), ("right", num 4)]),
        ("alignment", ref "studio.ui.alignment.AlignTop"),
        ("isFramed", bool true),
        ("items", arr [
          obj [
            ("deckWidgetType", ref "studio.ui.deckWidgetType.DistanceRolloffGraph"),
            ("rolloffTypeBinding", str "DAType"),
            ("minimumDistanceBinding", str "DAMinDist"),
            ("maximumDistanceBinding", str "DAMaxDist"),
            ("rolloffTypes", obj [
              ("0", ref "studio.project.distanceRolloffType.LinearSquared"),
              ("1", ref "studio.project.distanceRolloffType.Linear"),
              ("2", ref "studio.project.distanceRolloffType.Inverse"),
              ("3", ref "studio.project.distanceRolloffType.InverseSquared"),
              ("4", ref "studio.project.distanceRolloffType.Custom")])],
          obj [
            ("deckWidgetType", ref "studio.ui.deckWidgetType.MinMaxFader"),
            ("text", str "Min & Max Distances"),
            ("minimumBinding", str "DAMinDist"),
            ("maximumBinding", str "DAMaxDist")]])],
      obj [
        ("deckWidgetType", ref "studio.ui.deckWidgetType.Layout"),
        ("layout", ref "studio.ui.layoutType.VBoxLayout"),
        ("minimumWidth", num 128),
        ("maximumWidth", num 150),
        ("spacing", num 8),
        ("contentsMargins", obj [("left", num 4), ("right", num 4)]),
        ("alignment", ref "studio.ui.alignment.AlignTop"),
        ("isFramed", bool true),
        ("items", arr [
          obj [("deckWidgetType", ref "studio.ui.deckWidgetType.Label"), ("text", str "Directivity")],
          obj [
            ("deckWidgetType", ref "studio.ui.deckWidgetType.PolarDirectivityGraph"),
            ("directivityBinding", str "DipoleWeight"),
            ("sharpnessBinding", str "DipolePower")],
          obj [
            ("deckWidgetType", ref "studio.ui.deckWidgetType.Layout"),
            ("layout", ref "studio.ui.layoutType.HBoxLayout"),
            ("items", arr [
              obj [("deckWidgetType", ref "studio.ui.deckWidgetType.Dial"), ("binding", str "DipoleWeight")],
              obj [("deckWidgetType", ref "studio.ui.deckWidgetType.Dial"), ("binding", str "DipolePower")]])]])],
      obj [
        ("deckWidgetType", ref "studio.ui.deckWidgetType.Layout"),
        ("layout", ref "studio.ui.layoutType.VBoxLayout"),
        ("minimumWidth", num 128),
        ("maximumWidth", num 150),
        ("spacing", num 8),
        ("contentsMargins", obj [("left", num 4), ("right", num 4)]),
        ("alignment", ref "studio.ui.alignment.AlignTop"),
        ("isFramed", bool true),
        ("items", arr [
          obj [("deckWidgetType", ref "studio.ui.deckWidgetType.Dropdown"), ("binding", str "ApplyOc")],
          obj [("deckWidgetType", ref "studio.ui.deckWidgetType.Dropdown"), ("binding", str "ApplyTrans")],
          obj [("deckWidgetType", ref "studio.ui.deckWidgetType.Dropdown"), ("binding", str "TransType")]])],
      obj [
        ("deckWidgetType", ref "studio.ui.deckWidgetType.Layout"),
        ("layout", ref "studio.ui.layoutType.VBoxLayout"),
        ("minimumWidth", num 128),
        ("maximumWidth", num 250),
        ("spacing", num 8),
        ("contentsMargins", obj [("left", num 4), ("right", num 4)]),
        ("alignment", ref "studio.ui.alignment.AlignTop"),
        ("isFramed", bool true),
        ("items", arr [
          obj [
            ("deckWidgetType", ref "studio.ui.deckWidgetType.Layout"),
            ("layout", ref "studio.ui.layoutType.HBoxLayout"),
            ("spacing", num 8),
            ("items", arr [
              obj [("deckWidgetType", ref "studio.ui.deckWidgetType.Dial"), ("binding", str "AirAbsLow")],
              obj [("deckWidgetType", ref "studio.ui.deckWidgetType.Dial"), ("binding", str "AirAbsMid")],
              obj [("deckWidgetType", ref "studio.ui.deckWidgetType.Dial"), ("binding", str "AirAbsHigh")],
              obj [("deckWidgetType", ref "studio.ui.deckWidgetType.Dial"), ("binding", str "Directivity")]])],
          obj [
            ("deckWidgetType", ref "studio.ui.deckWidgetType.Layout"),
            ("layout", ref "studio.ui.layoutType.HBoxLayout"),
            ("spacing", num 8),
            ("items", arr [
              obj [("deckWidgetType", ref "studio.ui.deckWidgetType.Dial"), ("binding", str "Occlusion")],
              obj [("deckWidgetType", ref "studio.ui.deckWidgetType.Dial"), ("binding", str "TransLow")],
              obj [("deckWidgetType", ref "studio.ui.deckWidgetType.Dial"), ("binding", str "TransMid")],
              obj [("deckWidgetType", ref "studio.ui.deckWidgetType.Dial"), ("binding", str "TransHigh")]])]])],
      obj [
        ("deckWidgetType", ref "studio.ui.deckWidgetType.Layout"),
        ("layout", ref "studio.ui.layoutType.VBoxLayout"),
        ("minimumWidth", num 128),
        ("maximumWidth", num 150),
        ("spacing", num 8),
        ("contentsMargins", obj [("left", num 4), ("right", num 4)]),
        ("alignment", ref "studio.ui.alignment.AlignTop"),
        ("isFramed", bool true),
        ("items", arr [
          obj [
            ("deckWidgetType", ref "studio.ui.deckWidgetType.Button"),
            ("binding", str "DirectBinaural"),
            ("text", str "On")],
          obj [
            ("deckWidgetType", ref "studio.ui.deckWidgetType.Button"),
            ("binding", str "ApplyReflections"),
            ("text", str "On")],
          obj [
            ("deckWidgetType", ref "studio.ui.deckWidgetType.Button"),
            ("binding", str "ReflBinaural"),
            ("text", str "On")]])],
      obj [
        ("deckWidgetType", ref "studio.ui.deckWidgetType.Layout"),
        ("layout", ref "studio.ui.layoutType.VBoxLayout"),
        ("minimumWidth", num 128),
        ("maximumWidth", num 150),
        ("spacing", num 8),
        ("contentsMargins", obj [("left", num 4), ("right", num 4)]),
        ("alignment", ref "studio.ui.alignment.AlignTop"),
        ("isFramed", bool true),
        ("items", arr [
          obj [
            ("deckWidgetType", ref "studio.ui.deckWidgetType.Button"),
            ("binding", str "ApplyPathing"),
            ("text", str "On")],
          obj [
            ("deckWidgetType", ref "studio.ui.deckWidgetType.Button"),
            ("binding", str "PathBinaural"),
            ("text", str "On")],
          obj [("deckWidgetType", ref "studio.ui.deckWidgetType.Dropdown"), ("binding", str "OutputFormat")]])],
      obj [
        ("deckWidgetType", ref "studio.ui.deckWidgetType.Layout"),
        ("layout", ref "studio.ui.layoutType.VBoxLayout"),
        ("minimumWidth", num 225),
        ("maximumWidth", num 350),
        ("spacing", num 8),
        ("contentsMargins", obj [("left", num 4), ("right", num 4)]),
        ("alignment", ref "studio.ui.alignment.AlignTop"),
        ("isFramed", bool true),
        ("items", arr [
          obj [("deckWidgetType", ref "studio.ui.deckWidgetType.Dial"), ("binding", str "DirMixLevel")],
          obj [
            ("deckWidgetType", ref "studio.ui.deckWidgetType.Layout"),
            ("layout", ref "studio.ui.layoutType.HBoxLayout"),
            ("items", arr [
              obj [("deckWidgetType", ref "studio.ui.deckWidgetType.Dial"), ("binding", str "ReflMixLevel")],
              obj [("deckWidgetType", ref "studio.ui.deckWidgetType.Dial"), ("binding", str "PathMixLevel")]])]])],
      obj [("deckWidgetType", ref "studio.ui.deckWidgetType.OutputMeter")]])]

/-- The object passed to `studio.plugins.registerPluginDescription`
(source lines 18-322). -/
def pluginDescription : JsValue :=
  obj [
    ("companyName", str "The Rust Community"),
    ("productName", str "Phonon Spatializer"),
    ("parameters", parameters),
    ("deckUi", deckUi)]

/-! ## Readings of the description used by the properties -/

/-- The parameter identifiers that the interface description enumerates by
name, in the order it lists them. -/
def enumeratedParameters : List String :=
  ["DirectBinaural", "ApplyDA", "ApplyAA", "ApplyDir", "ApplyOc", "ApplyTrans",
   "ApplyReflections", "ApplyPathing", "HrtfInterp", "AirAbsLow", "AirAbsMid",
   "AirAbsHigh", "Occlusion", "TransType", "TransLow", "TransMid", "TransHigh",
   "DirMixLevel", "ReflMixLevel", "PathMixLevel", "ReflBinaural", "PathBinaural",
   "OutputFormat"]

/-- The `displayName` carried by the entry `params[name]`. -/
def displayName? (params : JsValue) (name : String) : Option String :=
  (params.get? name).bind fun entry => entry.strProp? "displayName"

/-- The single-parameter bindings of a deck: the value of the `binding`
property of every widget of the tree, in source order. -/
def bindings (ui : JsValue) : List String :=
  (widgets ui).filterMap fun w => w.strProp? "binding"

/-- Whether `w` is a framed panel: a `Layout` widget laid out as a
`VBoxLayout`, framed, aligned to the top, with spacing 8, contents margins
`{left: 4, right: 4}`, at least one item, and `minimumWidth <= maximumWidth`. -/
def isFramedPanel (w : JsValue) : Bool :=
  w.deckWidgetType? == some "studio.ui.deckWidgetType.Layout" &&
  w.refProp? "layout" == some "studio.ui.layoutType.VBoxLayout" &&
  (w.get? "isFramed").bind asBool? == some true &&
  w.refProp? "alignment" == some "studio.ui.alignment.AlignTop" &&
  w.numProp? "spacing" == some 8 &&
  (w.get? "contentsMargins").map keys == some ["left", "right"] &&
  (w.get? "contentsMargins").bind (fun m => m.numProp? "left") == some 4 &&
  (w.get? "contentsMargins").bind (fun m => m.numProp? "right") == some 4 &&
  !(w.arrProp "items").isEmpty &&
  (match w.numProp? "minimumWidth", w.numProp? "maximumWidth" with
   | some lo, some hi => decide (lo ≤ hi)
   | _, _ => false)

/-- A framed panel, property by property; `isFramedPanel` decides it
(`isFramedPanel_iff`). -/
def FramedPanel (w : JsValue) : Prop :=
  w.deckWidgetType? = some "studio.ui.deckWidgetType.Layout" ∧
  w.refProp? "layout" = some "studio.ui.layoutType.VBoxLayout" ∧
  (w.get? "isFramed").bind asBool? = some true ∧
  w.refProp? "alignment" = some "studio.ui.alignment.AlignTop" ∧
  w.numProp? "spacing" = some 8 ∧
  (w.get? "contentsMargins").map keys = some ["left", "right"] ∧
  (w.get? "contentsMargins").bind (fun m => m.numProp? "left") = some 4 ∧
  (w.get? "contentsMargins").bind (fun m => m.numProp? "right") = some 4 ∧
  w.arrProp "items" ≠ [] ∧
  ∃ lo hi, w.numProp? "minimumWidth" = some lo ∧
    w.numProp? "maximumWidth" = some hi ∧ lo ≤ hi

/-- The property names through which a widget binds a parameter. -/
def bindingProperties : List String :=
  ["binding", "rolloffTypeBinding", "minimumDistanceBinding", "maximumDistanceBinding",
   "minimumBinding", "maximumBinding", "directivityBinding", "sharpnessBinding"]

/-- Every binding of the deck whose bound name is not a key of `params`, as
(widget type, binding property, bound name), in source order. -/
def undeclaredBindings (ui params : JsValue) : List (String × String × String) :=
  (widgets ui).flatMap fun w =>
    bindingProperties.filterMap fun p =>
      match w.strProp? p with
      | some n =>
          if n ∈ params.keys then none else some ((w.deckWidgetType?).getD "", p, n)
      | none => none

/-- The widget types of the widgets whose `binding` property is `name`, in
source order. -/
def bindingWidgetTypes (ui : JsValue) (name : String) : List String :=
  ((widgets ui).filter fun w => w.strProp? "binding" == some name).filterMap deckWidgetType?

/-- The parameters that the interface description types as bool. -/
def boolParameters : List String :=
  ["DirectBinaural", "ApplyDA", "ApplyAA", "ApplyDir", "ApplyOc", "ApplyTrans",
   "ApplyReflections", "ApplyPathing", "ReflBinaural", "PathBinaural"]

/-- The parameters that the interface description types as enum. -/
def enumParameters : List String :=
  ["HrtfInterp", "TransType", "OutputFormat"]

/-- The parameters that the interface description types as float. -/
def floatParameters : List String :=
  ["AirAbsLow", "AirAbsMid", "AirAbsHigh", "Occlusion", "TransLow", "TransMid",
   "TransHigh", "DirMixLevel", "ReflMixLevel", "PathMixLevel"]

/-- Modelled from the spec: the rolloff types of the distance model, which the
plugin description refers to only through the host enumeration
`studio.project.distanceRolloffType`: linear, linear-squared, inverse,
inverse-squared and custom-curve. -/
inductive RolloffType where
  | linear
  | linearSquared
  | inverse
  | inverseSquared
  | customCurve
  deriving DecidableEq, Repr, Fintype

/-- The rolloff type that a member of `studio.project.distanceRolloffType`
stands for. -/
def rolloffTypeOfRef : String → Option RolloffType
  | "studio.project.distanceRolloffType.Linear" => some .linear
  | "studio.project.distanceRolloffType.LinearSquared" => some .linearSquared
  | "studio.project.distanceRolloffType.Inverse" => some .inverse
  | "studio.project.distanceRolloffType.InverseSquared" => some .inverseSquared
  | "studio.project.distanceRolloffType.Custom" => some .customCurve
  | _ => none

/-- The widgets of the deck that have the given `deckWidgetType`. -/
def widgetsOfType (ui : JsValue) (ty : String) : List JsValue :=
  (widgets ui).filter fun w => w.deckWidgetType? == some ty

/-- The `rolloffTypes` table of the deck: the property of that name of the
first `DistanceRolloffGraph` widget. -/
def rolloffTypes (ui : JsValue) : Option JsValue :=
  ((widgetsOfType ui "studio.ui.deckWidgetType.DistanceRolloffGraph").head?).bind
    fun w => w.get? "rolloffTypes"

/-- The rolloff type that the `rolloffTypes` table maps index `i` to. -/
def rolloffTypeAt (ui : JsValue) (i : Nat) : Option RolloffType :=
  ((rolloffTypes ui).bind fun t => t.refProp? (toString i)).bind rolloffTypeOfRef

/-! ## Engine formulas given by the specification

The plugin description only names the engine's parameters; the gain formulas
below are not in the source file and are written from the specification. -/

/-- Modelled from the spec: the directivity model is absent from the source.
The dipole pattern is `gain(θ) = (1 - weight) + weight * cos(θ) ^ power`, with
`cos(θ)` clamped to `[0, 1]` before exponentiation. -/
noncomputable def directivityGain (weight power theta : ℝ) : ℝ :=
  (1 - weight) + weight * (max 0 (min (Real.cos theta) 1)) ^ power

/-- The three bands of the filter bank shared by air absorption and
transmission. -/
inductive Band where
  | low
  | mid
  | high
  deriving DecidableEq, Repr

/-- Modelled from the spec: the two selectable transmission models of the
occlusion/transmission filter, which is absent from the source:
"frequency-independent" (a single scalar) and "frequency-dependent" (separate
low/mid/high gains). -/
inductive TransmissionModel (K : Type) where
  | frequencyIndependent (gain : K)
  | frequencyDependent (low mid high : K)

/-- Modelled from the spec: the transmission gain that a model gives a band of
the filter bank (absent from the source). -/
def transmissionGain {K : Type} : TransmissionModel K → Band → K
  | .frequencyIndependent g, _ => g
  | .frequencyDependent l _ _, .low => l
  | .frequencyDependent _ m _, .mid => m
  | .frequencyDependent _ _ h, .high => h

/-- Modelled from the spec: the per-band factor of the occlusion/transmission
filter, which is absent from the source.  `occlusion` is the unoccluded
fraction, a gain applied directly to the signal; `transmission` is `none` when
transmission is disabled.  Transmission is computed only when it is enabled
and `occlusion < 1`, and the factor is then
`occlusion + (1 - occlusion) * transmission_gain`; otherwise the occlusion gain
alone is applied. -/
def occlusionTransmissionFactor {K : Type} [LinearOrderedField K]
    (occlusion : K) (transmission : Option (TransmissionModel K)) (b : Band) : K :=
  match transmission with
  | some t =>
      if occlusion < 1 then occlusion + (1 - occlusion) * transmissionGain t b
      else occlusion
  | none => occlusion

/-- Modelled from the spec: the final direct-path gain of a band, the gain
`directGain` of the direct gain stage passed through the occlusion/transmission
filter (absent from the source). -/
def directPathGain {K : Type} [LinearOrderedField K]
    (directGain occlusion : K) (transmission : Option (TransmissionModel K)) (b : Band) : K :=
  directGain * occlusionTransmissionFactor occlusion transmission b

/-! ## The description as registered -/

/-- The check `isFramedPanel` decides `FramedPanel`. -/
theorem isFramedPanel_iff (w : JsValue) : isFramedPanel w = true ↔ FramedPanel w := by
  unfold isFramedPanel FramedPanel
  cases h1 : w.numProp? "minimumWidth" <;> cases h2 : w.numProp? "maximumWidth" <;>
    simp [List.isEmpty_iff, and_assoc]

/-- The names bound through `binding`, listed in source order. -/
theorem bindings_deckUi :
    bindings deckUi =
      ["HrtfInterp", "ApplyDA", "ApplyAA", "ApplyDir", "DipoleWeight", "DipolePower",
       "ApplyOc", "ApplyTrans", "TransType", "AirAbsLow", "AirAbsMid", "AirAbsHigh",
       "Directivity", "Occlusion", "TransLow", "TransMid", "TransHigh",
       "DirectBinaural", "ApplyReflections", "ReflBinaural", "ApplyPathing",
       "PathBinaural", "OutputFormat", "DirMixLevel", "ReflMixLevel", "PathMixLevel"] := by
  decide

/-- The widgets reached through `items` are all the object literals of the
deck that carry a `deckWidgetType`, and no object literal repeats a property
name (so that first-match lookup reads the literal as JavaScript does). -/
theorem widgets_deckUi_eq_objects :
    ((objects deckUi).filter fun o => (o.deckWidgetType?).isSome) = widgets deckUi ∧
    (∀ o ∈ objects deckUi, o.keys.Nodup) ∧
    (∀ o ∈ objects parameters, o.keys.Nodup) :=
  ⟨rfl, by decide, by decide⟩

/-- C1: every parameter that the interface description enumerates by identifier
is a key of the `parameters` table of the "Phonon Spatializer" description, and
its entry carries a `displayName` that is not the empty string. -/
theorem C1_enumerated_parameters_declared :
    pluginName = "Phonon Spatializer" ∧
    pluginDescription.get? "parameters" = some parameters ∧
    enumeratedParameters.length = 23 ∧
    ∀ n ∈ enumeratedParameters,
      n ∈ parameters.keys ∧ ∃ d, displayName? parameters n = some d ∧ d ≠ "" := by
  refine ⟨rfl, rfl, rfl, ?_⟩
  have h : ∀ n ∈ enumeratedParameters,
      n ∈ parameters.keys ∧ (displayName? parameters n).isSome = true ∧
        displayName? parameters n ≠ some "" := by decide
  intro n hn
  obtain ⟨hk, hs, hne⟩ := h n hn
  obtain ⟨d, hd⟩ := Option.isSome_iff_exists.mp hs
  exact ⟨hk, d, hd, fun hd0 => hne (by rw [hd, hd0])⟩

/-- C8: the `binding` properties of the widgets of `deckUi` (which are all the
`binding` properties anywhere in the literal) give 26 names, no two of them
equal, and a name is among them exactly when it is a key of
`parameters` other than DistAtt; DistAtt is a key of `parameters` and is bound
by no widget. -/
theorem C8_bindings_are_parameters_minus_DistAtt :
    ((objects deckUi).filterMap fun o => o.strProp? "binding") = bindings deckUi ∧
    (bindings deckUi).length = 26 ∧
    (bindings deckUi).Nodup ∧
    (∀ n, n ∈ bindings deckUi ↔ n ∈ parameters.keys ∧ n ≠ "DistAtt") ∧
    "DistAtt" ∈ parameters.keys ∧ "DistAtt" ∉ bindings deckUi := by
  have h1 : ∀ n ∈ bindings deckUi, n ∈ parameters.keys ∧ n ≠ "DistAtt" := by decide
  have h2 : ∀ n ∈ parameters.keys, n ≠ "DistAtt" → n ∈ bindings deckUi := by decide
  refine ⟨by decide, by decide, by decide, ?_, by decide, by decide⟩
  intro n
  exact ⟨h1 n, fun h => h2 n h.1 h.2⟩

/-- C9: `deckUi` is an `HBoxLayout` of exactly 10 items, the first an
`InputMeter`, the last an `OutputMeter`, and each of the 8 items in between is
a framed panel: a `Layout` widget with layout `VBoxLayout`, `isFramed` true,
alignment `AlignTop`, spacing 8, contents margins `{left: 4, right: 4}`, a
non-empty `items` list and `minimumWidth <= maximumWidth`. -/
theorem C9_deck_is_meters_around_framed_panels :
    deckUi.deckWidgetType? = some "studio.ui.deckWidgetType.Layout" ∧
    deckUi.refProp? "layout" = some "studio.ui.layoutType.HBoxLayout" ∧
    (deckUi.arrProp "items").length = 10 ∧
    (deckUi.arrProp "items").head?.bind deckWidgetType? =
      some "studio.ui.deckWidgetType.InputMeter" ∧
    (deckUi.arrProp "items").getLast?.bind deckWidgetType? =
      some "studio.ui.deckWidgetType.OutputMeter" ∧
    ((deckUi.arrProp "items").drop 1).dropLast.length = 8 ∧
    ∀ p ∈ ((deckUi.arrProp "items").drop 1).dropLast, FramedPanel p := by
  have h : ∀ p ∈ ((deckUi.arrProp "items").drop 1).dropLast, isFramedPanel p = true := by
    decide
  refine ⟨by decide, by decide, by decide, by decide, by decide, by decide, ?_⟩
  exact fun p hp => (isFramedPanel_iff p).mp (h p hp)

/-- The `DistanceRolloffGraph` widget is the only one of its type, and its
`rolloffTypes` literal reads as follows. -/
theorem rolloffTypes_deckUi :
    (widgetsOfType deckUi "studio.ui.deckWidgetType.DistanceRolloffGraph").length = 1 ∧
    (rolloffTypes deckUi).map keys = some ["0", "1", "2", "3", "4"] ∧
    ((rolloffTypes deckUi).map fun t => t.keys.map t.refProp?) =
      some [some "studio.project.distanceRolloffType.LinearSquared",
            some "studio.project.distanceRolloffType.Linear",
            some "studio.project.distanceRolloffType.Inverse",
            some "studio.project.distanceRolloffType.InverseSquared",
            some "studio.project.distanceRolloffType.Custom"] := by
  decide

/-- C3: the `rolloffTypes` table of the DistanceRolloffGraph widget has exactly
the keys 0, 1, 2, 3, 4, maps them to LinearSquared, Linear, Inverse,
InverseSquared and Custom in this order, and is a bijection between the five
indices and the five rolloff types of the distance model: distinct indices give
distinct types and every type is the image of an index. -/
theorem C3_rolloffTypes_bijection :
    (rolloffTypes deckUi).map keys = some ["0", "1", "2", "3", "4"] ∧
    rolloffTypeAt deckUi 0 = some RolloffType.linearSquared ∧
    rolloffTypeAt deckUi 1 = some RolloffType.linear ∧
    rolloffTypeAt deckUi 2 = some RolloffType.inverse ∧
    rolloffTypeAt deckUi 3 = some RolloffType.inverseSquared ∧
    rolloffTypeAt deckUi 4 = some RolloffType.customCurve ∧
    (∀ i : Fin 5, ∀ j : Fin 5, rolloffTypeAt deckUi i = rolloffTypeAt deckUi j → i = j) ∧
    (∀ t : RolloffType, ∃ i : Fin 5, rolloffTypeAt deckUi i = some t) ∧
    Fintype.card RolloffType = 5 := by
  decide

/-- C2, as stated, fails: the DistanceRolloffGraph widget of `deckUi` binds
DAType through `rolloffTypeBinding`, and DAType is not a key of `parameters`;
hence not every bound name is a key of `parameters`. -/
theorem C2_counterexample_DAType_undeclared :
    (∃ w ∈ widgets deckUi,
      w.deckWidgetType? = some "studio.ui.deckWidgetType.DistanceRolloffGraph" ∧
      w.strProp? "rolloffTypeBinding" = some "DAType") ∧
    "DAType" ∉ parameters.keys ∧
    ¬ (∀ w ∈ widgets deckUi, ∀ p ∈ bindingProperties, ∀ n,
        w.strProp? p = some n → n ∈ parameters.keys) := by
  have hex : ∃ w ∈ widgets deckUi,
      w.deckWidgetType? = some "studio.ui.deckWidgetType.DistanceRolloffGraph" ∧
      w.strProp? "rolloffTypeBinding" = some "DAType" := by decide
  have hnot : "DAType" ∉ parameters.keys := by decide
  refine ⟨hex, hnot, fun hall => ?_⟩
  obtain ⟨w, hw, -, hb⟩ := hex
  exact hnot (hall w hw "rolloffTypeBinding" (by decide) "DAType" hb)

/-- C2, amended: for every widget of `deckUi` and every one of its binding
properties, the bound name is a key of `parameters` or one of DAType, DAMinDist
and DAMaxDist; these three names are not keys of `parameters`, and the bindings
to a name outside `parameters` are exactly the three of the
DistanceRolloffGraph widget and the two of the MinMaxFader widget. -/
theorem C2_bound_names_declared_or_distance :
    (∀ w ∈ widgets deckUi, ∀ p ∈ bindingProperties, ∀ n,
      w.strProp? p = some n →
        n ∈ parameters.keys ∨ n ∈ ["DAType", "DAMinDist", "DAMaxDist"]) ∧
    (∀ n ∈ ["DAType", "DAMinDist", "DAMaxDist"], n ∉ parameters.keys) ∧
    undeclaredBindings deckUi parameters =
      [("studio.ui.deckWidgetType.DistanceRolloffGraph", "rolloffTypeBinding", "DAType"),
       ("studio.ui.deckWidgetType.DistanceRolloffGraph", "minimumDistanceBinding", "DAMinDist"),
       ("studio.ui.deckWidgetType.DistanceRolloffGraph", "maximumDistanceBinding", "DAMaxDist"),
       ("studio.ui.deckWidgetType.MinMaxFader", "minimumBinding", "DAMinDist"),
       ("studio.ui.deckWidgetType.MinMaxFader", "maximumBinding", "DAMaxDist")] := by
  have h : ∀ w ∈ widgets deckUi, ∀ p ∈ bindingProperties, ∀ n ∈ (w.strProp? p).toList,
      n ∈ parameters.keys ∨ n ∈ ["DAType", "DAMinDist", "DAMaxDist"] := by decide
  refine ⟨fun w hw p hp n hn => h w hw p hp n ?_, by decide, by decide⟩
  rw [hn]
  exact List.mem_singleton.mpr rfl

/-- C7, as stated, fails: ApplyDA is one of the bool toggles, the only widget
of `deckUi` that binds it is a Dropdown, and so not every bool toggle is bound
by a Button. -/
theorem C7_counterexample_ApplyDA_dropdown :
    "ApplyDA" ∈ boolParameters ∧
    bindingWidgetTypes deckUi "ApplyDA" = ["studio.ui.deckWidgetType.Dropdown"] ∧
    ¬ (∀ n ∈ boolParameters,
        "studio.ui.deckWidgetType.Button" ∈ bindingWidgetTypes deckUi n) := by
  decide

/-- C7, amended: each of DirectBinaural, ApplyReflections, ApplyPathing,
ReflBinaural and PathBinaural is bound by exactly one widget, a Button; each of
ApplyDA, ApplyAA, ApplyDir, ApplyOc and ApplyTrans, like each enum (HrtfInterp,
TransType, OutputFormat), by exactly one widget, a Dropdown; each float by
exactly one widget, a Dial.  The two groups of toggles make up all ten bool
parameters. -/
theorem C7_widget_types_of_bindings :
    (∀ n ∈ ["DirectBinaural", "ApplyReflections", "ApplyPathing", "ReflBinaural",
            "PathBinaural"],
      bindingWidgetTypes deckUi n = ["studio.ui.deckWidgetType.Button"]) ∧
    (∀ n ∈ ["ApplyDA", "ApplyAA", "ApplyDir", "ApplyOc", "ApplyTrans"],
      bindingWidgetTypes deckUi n = ["studio.ui.deckWidgetType.Dropdown"]) ∧
    (∀ n ∈ enumParameters,
      bindingWidgetTypes deckUi n = ["studio.ui.deckWidgetType.Dropdown"]) ∧
    (∀ n ∈ floatParameters,
      bindingWidgetTypes deckUi n = ["studio.ui.deckWidgetType.Dial"]) ∧
    (boolParameters.filter fun n =>
        bindingWidgetTypes deckUi n == ["studio.ui.deckWidgetType.Button"]) =
      ["DirectBinaural", "ApplyReflections", "ApplyPathing", "ReflBinaural",
       "PathBinaural"] ∧
    (boolParameters.filter fun n =>
        bindingWidgetTypes deckUi n == ["studio.ui.deckWidgetType.Dropdown"]) =
      ["ApplyDA", "ApplyAA", "ApplyDir", "ApplyOc", "ApplyTrans"] ∧
    boolParameters.length = 10 := by
  decide

/-- The clamped cosine lies in `[0, 1]`. -/
theorem clampedCos_mem (theta : ℝ) :
    0 ≤ max 0 (min (Real.cos theta) 1) ∧ max 0 (min (Real.cos theta) 1) ≤ 1 :=
  ⟨le_max_left _ _, max_le zero_le_one (min_le_right _ _)⟩

/-- On the axis the directivity gain is 1, whatever the weight and power. -/
theorem directivityGain_zero (weight power : ℝ) : directivityGain weight power 0 = 1 := by
  simp [directivityGain]

/-- C5: for a weight `>= 0` and a power `>= 0` (the bound `weight <= 1` of the
parameter range is not needed), the directivity gain
`(1 - weight) + weight * c ^ power`, `c` the cosine clamped to `[0, 1]`, is
maximal at `theta = 0` when `weight > 0`, and is 1 for every `theta` when
`weight = 0`. -/
theorem C5_directivity_gain_maximal_on_axis (weight power : ℝ)
    (hw : 0 ≤ weight) (hp : 0 ≤ power) :
    (0 < weight → ∀ theta,
      directivityGain weight power theta ≤ directivityGain weight power 0) ∧
    (weight = 0 → ∀ theta, directivityGain weight power theta = 1) := by
  constructor
  · intro _ theta
    rw [directivityGain_zero]
    have hc := clampedCos_mem theta
    have hpow : (max 0 (min (Real.cos theta) 1)) ^ power ≤ 1 :=
      Real.rpow_le_one hc.1 hc.2 hp
    have := mul_le_mul_of_nonneg_left hpow hw
    unfold directivityGain
    linarith
  · intro h0 theta
    simp [directivityGain, h0]

/-- C5 at weight 1/2 and power 3/2: behind the source (`theta = π`) the gain
is at most the gain on the axis. -/
theorem C5_directivity_gain_witness :
    directivityGain (1 / 2) (3 / 2) Real.pi ≤ directivityGain (1 / 2) (3 / 2) 0 :=
  (C5_directivity_gain_maximal_on_axis (1 / 2) (3 / 2) (by norm_num) (by norm_num)).1
    (by norm_num) Real.pi

/-- The occlusion/transmission factor evaluated on rationals: half occluded,
frequency-dependent transmission 1/4, 1/2, 1, low band. -/
theorem occlusionTransmissionFactor_eval :
    occlusionTransmissionFactor (1 / 2 : ℚ)
      (some (TransmissionModel.frequencyDependent (1 / 4) (1 / 2) 1)) Band.low = 5 / 8 := by
  norm_num [occlusionTransmissionFactor, transmissionGain]

/-- C6: with transmission enabled and an unoccluded fraction `occlusion <= 1`,
the per-band factor of the direct path is
`occlusion + (1 - occlusion) * transmission_gain`; at `occlusion = 1` the
direct-path gain is the gain of the direct gain stage itself, for every
transmission setting (disabled or either model, any gains) and every band; at
`occlusion = 0` with transmission disabled the direct-path gain is 0. -/
theorem C6_direct_path_gain {K : Type} [LinearOrderedField K] :
    (∀ (occlusion : K) (t : TransmissionModel K) (b : Band), occlusion ≤ 1 →
      occlusionTransmissionFactor occlusion (some t) b =
        occlusion + (1 - occlusion) * transmissionGain t b) ∧
    (∀ (directGain : K) (transmission : Option (TransmissionModel K)) (b : Band),
      directPathGain directGain 1 transmission b = directGain) ∧
    (∀ (directGain : K) (b : Band), directPathGain directGain 0 none b = 0) := by
  refine ⟨?_, ?_, ?_⟩
  · intro occlusion t b h
    unfold occlusionTransmissionFactor
    split_ifs with hlt
    · rfl
    · have h1 : occlusion = 1 := le_antisymm h (not_lt.mp hlt)
      subst h1
      ring
  · intro directGain transmission b
    cases transmission <;> simp [directPathGain, occlusionTransmissionFactor]
  · intro directGain b
    simp [directPathGain, occlusionTransmissionFactor]

end PhononFmod
